import Mathlib

/-!
Shallow embedding of the project-tracker application
(files src/unnamed/part_000, src/unnamed/part_001 and
src/TS_DragAndDrop/src/app.ts of Frontend-projects).

The Store (class ProjectState), the Record type (class Project) and the
pure predicate `validate` are textually identical in part_000 and
part_001; they are embedded once below.  The ProjectList view differs
between the two files — part_000 filters the snapshot by status and
clears the rendered list before redrawing, part_001 does neither — so
those two variants are embedded separately in namespaces Part000 and
Part001.

Modelling conventions:
  - JavaScript objects are Lean structures of the same field names.
  - `Math.random().toString()` is nondeterministic, so every operation
    that calls it takes the produced string as an explicit extra
    argument (`randId`), playing the role of the random oracle.
  - Listener callbacks registered on the Store are identified by opaque
    tags (Nat); the broadcast loop of `addProject` is embedded as the
    list of calls it makes, each call being the pair
    (listener tag, snapshot passed).  The snapshot is
    `this.projects.slice()`, a copy of the array, which in the pure
    list model is the list value itself.
  - DOM rendering state of a view is the list of the textContents of
    the list items it holds, in document order.
-/

/-- enum ProjectStatus (identical in part_000 and part_001). -/
inductive ProjectStatus where
  | Active
  | Finished
deriving DecidableEq, Repr

/-- class Project (identical in part_000 and part_001): id, title,
description, people, status.  The JavaScript number `people` is modelled
as Int (every value the claims exercise is an integer). -/
structure Project where
  id : String
  title : String
  description : String
  people : Int
  status : ProjectStatus
deriving DecidableEq, Repr

instance : Inhabited Project :=
  ⟨⟨"", "", "", 0, ProjectStatus.Active⟩⟩

/-- class ProjectState (identical logic in part_000 and part_001):
the listener array and the projects array.  Listener callbacks are
identified by opaque Nat tags. -/
structure ProjectState where
  listeners : List Nat
  projects : List Project
deriving DecidableEq, Repr

/-- ProjectState.addListener / State.addListener: push the callback onto
the listener array. -/
def ProjectState.addListener (s : ProjectState) (listenerFN : Nat) : ProjectState :=
  { s with listeners := s.listeners ++ [listenerFN] }

/-- ProjectState.addProject: build a new Project with id
Math.random().toString() (passed in as `randId`), status Active, push it,
then call every registered listener with this.projects.slice().
The returned list records the calls made by the broadcast loop, in
listener-registration order: each entry is (listener tag, snapshot). -/
def ProjectState.addProject (s : ProjectState) (randId : String) (title : String)
    (description : String) (numOfPeople : Int) :
    ProjectState × List (Nat × List Project) :=
  let newProject : Project :=
    ⟨randId, title, description, numOfPeople, ProjectStatus.Active⟩
  let s' : ProjectState := { s with projects := s.projects ++ [newProject] }
  (s', s'.listeners.map (fun listenerFN => (listenerFN, s'.projects)))

/-- One call to addProject, with the random-oracle output and the three
arguments. -/
structure AppendInput where
  randId : String
  title : String
  description : String
  numOfPeople : Int
deriving DecidableEq, Repr

/-- The Project that addProject constructs from an AppendInput. -/
def AppendInput.toProject (i : AppendInput) : Project :=
  ⟨i.randId, i.title, i.description, i.numOfPeople, ProjectStatus.Active⟩

/-- Run a sequence of addProject calls, collecting the broadcast log of
each call (the list of (listener, snapshot) pairs it produced). -/
def runAppends (s : ProjectState) :
    List AppendInput → ProjectState × List (List (Nat × List Project))
  | [] => (s, [])
  | i :: rest =>
      let step := s.addProject i.randId i.title i.description i.numOfPeople
      let next := runAppends step.1 rest
      (next.1, step.2 :: next.2)

/-- States of the Store reachable from the freshly constructed singleton
(empty listener array, empty projects array) by any interleaving of
addListener and addProject calls — the only operations the Store
exposes. -/
inductive Reachable : ProjectState → Prop
  | init : Reachable ⟨[], []⟩
  | addListener (s : ProjectState) (l : Nat) :
      Reachable s → Reachable (s.addListener l)
  | addProject (s : ProjectState) (randId title description : String) (n : Int) :
      Reachable s → Reachable (s.addProject randId title description n).1

/-- interface Validatable.  `value: string | number`. -/
inductive Value where
  | str (s : String)
  | num (n : Int)
deriving DecidableEq, Repr

/-- interface Validatable: the optional check configuration accompanying
a value.  An absent (undefined) field is `none`. -/
structure Validatable where
  value : Value
  required : Option Bool := none
  minLength : Option Int := none
  maxLength : Option Int := none
  min : Option Int := none
  max : Option Int := none
deriving DecidableEq, Repr

/-- JavaScript `.trim()`: strip leading and trailing whitespace. -/
def jsTrim (s : String) : String :=
  String.mk
    (((s.data.dropWhile Char.isWhitespace).reverse.dropWhile Char.isWhitespace).reverse)

/-- JavaScript `.toString()` on a `string | number` value. -/
def jsToString : Value → String
  | Value.str s => s
  | Value.num n => toString n

/-- function validate (identical in part_000 and part_001): start from
isValid = true and fold in each configured check.  `if (object.required)`
is the truthiness test (undefined and false are falsy); `!= null` is
presence of the optional field; `typeof object.value === 'string'` is
the Value.str case. -/
def validate (object : Validatable) : Bool :=
  let isValid := true
  let isValid :=
    match object.required with
    | some true => isValid && ((jsTrim (jsToString object.value)).length != 0)
    | _ => isValid
  let isValid :=
    match object.minLength, object.value with
    | some m, Value.str s => isValid && ((s.length : Int) > m)
    | _, _ => isValid
  let isValid :=
    match object.maxLength, object.value with
    | some m, Value.str s => isValid && ((s.length : Int) < m)
    | _, _ => isValid
  let isValid :=
    match object.min, object.value with
    | some m, Value.num n => isValid && (n > m)
    | _, _ => isValid
  let isValid :=
    match object.max, object.value with
    | some m, Value.num n => isValid && (n < m)
    | _, _ => isValid
  isValid

/-- Decimal digit-string parse used to model numeric coercion. -/
def parseDigits : List Char → Option Nat
  | [] => none
  | cs =>
      if cs.all Char.isDigit then
        some (cs.foldl (fun acc c => 10 * acc + (c.toNat - 48)) 0)
      else none

/-- JavaScript unary plus on a form-field string, as in
`+enteredPeople`: the empty (or all-whitespace) string coerces to 0,
otherwise the (possibly negative) decimal integer it spells.  (Every
people value the claims exercise is a decimal-integer field content; the
NaN and fractional cases of the coercion are never reached by them.) -/
def jsToNumber (s : String) : Int :=
  match (jsTrim s).data with
  | [] => 0
  | c :: rest =>
      if c = '-' then
        match parseDigits rest with
        | some n => -(n : Int)
        | none => 0
      else
        match parseDigits (c :: rest) with
        | some n => (n : Int)
        | none => 0

/-- The Validatable built for the title field in
ProjectInput.gatherUserInput: required, minLength 5, maxLength 15. -/
def titleValidatable (enteredTitle : String) : Validatable :=
  { value := Value.str enteredTitle
    required := some true
    minLength := some 5
    maxLength := some 15 }

/-- ProjectInput.gatherUserInput (identical in part_000 and part_001):
validate the title only (the source comment reads
`//... add for all types`); on failure alert and return undefined
(`none`), on success return the tuple with the people field coerced by
unary plus. -/
def gatherUserInput (enteredTitle : String) (enteredDescription : String)
    (enteredPeople : String) : Option (String × String × Int) :=
  if !(validate (titleValidatable enteredTitle)) then
    none
  else
    some (enteredTitle, enteredDescription, jsToNumber enteredPeople)

/-- The fixed partition of a ProjectList view: the constructor argument
`type: 'active' | 'finished'`. -/
inductive ListType where
  | active
  | finished
deriving DecidableEq, Repr

/-- The mutable view state of a ProjectList: its assignedProjects field
and the textContents of the li elements currently in its ul, in
document order. -/
structure ViewState where
  assignedProjects : List Project
  rendered : List String
deriving DecidableEq, Repr

namespace Part000

/-- The filter predicate inside the part_000 configure listener:
an active view keeps Active records, a finished view keeps Finished
records. -/
def statusMatches (type : ListType) (x : Project) : Bool :=
  match type with
  | ListType.active => x.status = ProjectStatus.Active
  | ListType.finished => x.status = ProjectStatus.Finished

/-- part_000 ProjectList.configure listener body, first half:
relevantProjects = projects.filter(...) by the view's partition. -/
def relevantProjects (type : ListType) (projects : List Project) : List Project :=
  projects.filter (statusMatches type)

/-- part_000 ProjectList.renderProjects: listEl.innerHTML = '' discards
the previous li elements, then one li per assigned project is appended,
carrying the project title. -/
def renderProjects (_prevItems : List String) (assignedProjects : List Project) :
    List String :=
  assignedProjects.map (fun prjItem => prjItem.title)

/-- part_000 ProjectList listener (registered in configure): filter the
snapshot by the view's partition, store it in assignedProjects, then
renderProjects. -/
def onNotify (type : ListType) (v : ViewState) (projects : List Project) :
    ViewState :=
  let relevant := relevantProjects type projects
  { assignedProjects := relevant
    rendered := renderProjects v.rendered relevant }

/-- The whole part_000 page: the singleton Store's projects array, the
two ProjectList views created by the main script (active first, then
finished — which is also their listener-registration order), the three
input fields of the ProjectInput form, and counters for the alert calls
and listener invocations observed so far. -/
structure MainApp where
  projects : List Project
  activeView : ViewState
  finishedView : ViewState
  titleInput : String
  descriptionInput : String
  peopleInput : String
  alerts : Nat
  notifications : Nat
deriving DecidableEq, Repr

/-- The broadcast loop of addProject as wired in the part_000 main
script: the active view's listener runs first, then the finished
view's, each receiving the snapshot. -/
def notifyListeners (a : MainApp) (snapshot : List Project) : MainApp :=
  { a with
    activeView := onNotify ListType.active a.activeView snapshot
    finishedView := onNotify ListType.finished a.finishedView snapshot
    notifications := a.notifications + 2 }

/-- projectState.addProject as observed by the whole part_000 page:
push the new Active record, then notify both registered listeners. -/
def addProject (a : MainApp) (randId : String) (title : String)
    (description : String) (numOfPeople : Int) : MainApp :=
  let newProject : Project :=
    ⟨randId, title, description, numOfPeople, ProjectStatus.Active⟩
  let a' := { a with projects := a.projects ++ [newProject] }
  notifyListeners a' a'.projects

/-- ProjectInput.submitHandler: gatherUserInput; on a tuple, addProject
then clearInputs; on undefined (invalid title) the alert inside
gatherUserInput has fired and nothing else happens. -/
def submitHandler (a : MainApp) (randId : String) : MainApp :=
  match gatherUserInput a.titleInput a.descriptionInput a.peopleInput with
  | some (title, desc, people) =>
      let a' := addProject a randId title desc people
      { a' with titleInput := "", descriptionInput := "", peopleInput := "" }
  | none => { a with alerts := a.alerts + 1 }

end Part000

namespace Part001

/-- part_001 ProjectList.renderProjects: no innerHTML reset — the li
elements of previous renders stay in the ul and one li per assigned
project is appended after them. -/
def renderProjects (prevItems : List String) (assignedProjects : List Project) :
    List String :=
  prevItems ++ assignedProjects.map (fun prjItem => prjItem.title)

/-- part_001 ProjectList listener (registered in the constructor):
this.assignedProjects = projects — the full snapshot, with no filter by
the view's type — then renderProjects. -/
def onNotify (v : ViewState) (projects : List Project) : ViewState :=
  { assignedProjects := projects
    rendered := renderProjects v.rendered projects }

end Part001

/-- Explicit-heap model of the Store for the aliasing claim.  JavaScript
arrays hold references to Project objects; `projects.slice()` copies the
array of references but not the objects.  Here the heap is the list of
allocated Project objects (a reference is an allocation index), the
Store's projects array is a list of references, and a snapshot handed to
a listener is a copy of that reference list. -/
structure HeapModel where
  heap : List Project
  listeners : List Nat
  projects : List Nat
deriving DecidableEq, Repr

/-- addProject in the heap model: allocate the new Project object, push
its reference, then call each listener with projects.slice() — a copy of
the reference array. -/
def HeapModel.addProject (m : HeapModel) (randId : String) (title : String)
    (description : String) (numOfPeople : Int) :
    HeapModel × List (Nat × List Nat) :=
  let newRef := m.heap.length
  let newProject : Project :=
    ⟨randId, title, description, numOfPeople, ProjectStatus.Active⟩
  let m' := { m with
    heap := m.heap ++ [newProject]
    projects := m.projects ++ [newRef] }
  (m', m'.listeners.map (fun listenerFN => (listenerFN, m'.projects)))

/-- In-place assignment `obj.title = t` on the Project object behind
reference r — what a subscriber does when it mutates a record reached
through its snapshot. -/
def HeapModel.setTitle (m : HeapModel) (r : Nat) (t : String) : HeapModel :=
  { m with heap := m.heap.set r { m.heap.getD r default with title := t } }

/-- The sequence of Record values the Store holds, read back through the
heap: dereference each entry of the projects array. -/
def HeapModel.readProjects (m : HeapModel) : List Project :=
  m.projects.map (fun r => m.heap.getD r default)

/-! Helper lemmas about iterated addProject calls. -/

/-- After any sequence of addProject calls, the Store's projects array
is the old array followed by the created Records, in append order. -/
theorem runAppends_projects :
    ∀ (inputs : List AppendInput) (s : ProjectState),
      (runAppends s inputs).1.projects
        = s.projects ++ inputs.map AppendInput.toProject := by
  intro inputs
  induction inputs with
  | nil => intro s; simp [runAppends]
  | cons i rest ih =>
      intro s
      simp [runAppends, ih, ProjectState.addProject, AppendInput.toProject,
        List.append_assoc]

/-- addProject never changes the listener array. -/
theorem runAppends_listeners :
    ∀ (inputs : List AppendInput) (s : ProjectState),
      (runAppends s inputs).1.listeners = s.listeners := by
  intro inputs
  induction inputs with
  | nil => intro s; simp [runAppends]
  | cons i rest ih => intro s; simp [runAppends, ih, ProjectState.addProject]

/-- The broadcast log of the (k+1)st addProject call in a sequence: every
registered listener is called, in registration order, with the snapshot
holding the prior projects followed by the first k+1 created Records. -/
theorem runAppends_log_get :
    ∀ (inputs : List AppendInput) (s : ProjectState) (k : Nat),
      k < inputs.length →
      (runAppends s inputs).2.get? k
        = some (s.listeners.map fun l =>
            (l, s.projects ++ (inputs.take (k + 1)).map AppendInput.toProject)) := by
  intro inputs
  induction inputs with
  | nil => intro s k hk; simp at hk
  | cons i rest ih =>
      intro s k hk
      cases k with
      | zero =>
          simp [runAppends, ProjectState.addProject, AppendInput.toProject]
      | succ k =>
          have hk' : k < rest.length := Nat.lt_of_succ_lt_succ hk
          have step := ih (s.addProject i.randId i.title i.description i.numOfPeople).1 k hk'
          simp only [runAppends, List.get?_cons_succ]
          rw [step]
          simp [ProjectState.addProject, AppendInput.toProject, List.append_assoc]

/-- C1: for every sequence of successful addProject calls starting from
a Store with listener set L and no projects, every listener registered
before the first call is called, after the (k+1)st append, with a
snapshot of exactly the k+1 Records created so far, in append order
(and the calls happen in registration order). -/
theorem addProject_broadcasts_full_snapshots (L : List Nat)
    (inputs : List AppendInput) (k : Nat) (hk : k < inputs.length) :
    (runAppends ⟨L, []⟩ inputs).2.get? k
      = some (L.map fun l =>
          (l, (inputs.take (k + 1)).map AppendInput.toProject)) := by
  have h := runAppends_log_get inputs ⟨L, []⟩ k hk
  simpa using h

/-- Witness for C1: two listeners, two appends, log of the second
append evaluated concretely. -/
theorem addProject_broadcasts_full_snapshots_witness :
    (runAppends ⟨[3, 8], []⟩
        [⟨"0.1", "alpha", "da", 1⟩, ⟨"0.2", "beta", "db", 2⟩]).2.get? 1
      = some ([3, 8].map fun l =>
          (l, ([⟨"0.1", "alpha", "da", 1⟩,
                (⟨"0.2", "beta", "db", 2⟩ : AppendInput)].take 2).map
                  AppendInput.toProject)) :=
  addProject_broadcasts_full_snapshots [3, 8]
    [⟨"0.1", "alpha", "da", 1⟩, ⟨"0.2", "beta", "db", 2⟩] 1 (by decide)

/-- C7: every Record created by addProject has status Active, and in
every reachable Store state every held Record has status Active — no
operation of the system produces any other status. -/
theorem reachable_status_active (s : ProjectState) (hs : Reachable s) :
    ∀ p ∈ s.projects, p.status = ProjectStatus.Active := by
  induction hs with
  | init => intro p hp; simp at hp
  | addListener s l _ ih =>
      intro p hp
      simp only [ProjectState.addListener] at hp
      exact ih p hp
  | addProject s randId title description n _ ih =>
      intro p hp
      simp only [ProjectState.addProject, List.mem_append,
        List.mem_singleton] at hp
      rcases hp with hp | hp
      · exact ih p hp
      · rw [hp]

/-- Witness for C7: the Record held after one addProject from the
initial Store has status Active. -/
theorem reachable_status_active_witness :
    Project.status ⟨"0.5", "alpha", "da", 1, ProjectStatus.Active⟩
      = ProjectStatus.Active :=
  reachable_status_active
    ((ProjectState.addProject ⟨[], []⟩ "0.5" "alpha" "da" 1).1)
    (Reachable.addProject ⟨[], []⟩ "0.5" "alpha" "da" 1 Reachable.init)
    ⟨"0.5", "alpha", "da", 1, ProjectStatus.Active⟩ (by decide)

/-- C9 counterexample: Math.random().toString() is the only id source
and nothing in addProject prevents it from repeating; when the oracle
yields the same string twice, two distinct append calls produce two
Records with equal ids — the claimed distinctness fails. -/
theorem duplicate_random_id_cex :
    ((((⟨[], []⟩ : ProjectState).addProject "0.5" "alpha" "da" 1).1.addProject
        "0.5" "beta" "db" 2).1.projects.map Project.id = ["0.5", "0.5"])
  ∧ ¬ List.Nodup
      ((((⟨[], []⟩ : ProjectState).addProject "0.5" "alpha" "da" 1).1.addProject
          "0.5" "beta" "db" 2).1.projects.map Project.id) := by
  constructor
  · decide
  · decide

/-- C9 amended: Records produced by distinct append calls carry distinct
ids provided the random strings drawn at those calls are pairwise
distinct (the code itself enforces no uniqueness). -/
theorem ids_nodup_of_rands_nodup (L : List Nat) (inputs : List AppendInput)
    (h : (inputs.map AppendInput.randId).Nodup) :
    ((runAppends ⟨L, []⟩ inputs).1.projects.map Project.id).Nodup := by
  rw [runAppends_projects inputs ⟨L, []⟩]
  simpa [List.map_map] using h

/-- Witness for the amended C9: two appends with distinct random
strings give Records with distinct ids. -/
theorem ids_nodup_of_rands_nodup_witness :
    ((runAppends ⟨[], []⟩
        [⟨"0.11", "alpha", "da", 1⟩, ⟨"0.22", "beta", "db", 2⟩]).1.projects.map
          Project.id).Nodup :=
  ids_nodup_of_rands_nodup []
    [⟨"0.11", "alpha", "da", 1⟩, ⟨"0.22", "beta", "db", 2⟩] (by decide)

/-- Sample Active record used in counterexamples. -/
def sampleP1 : Project := ⟨"0.1", "T1", "d1", 1, ProjectStatus.Active⟩

/-- Second sample Active record used in counterexamples. -/
def sampleP2 : Project := ⟨"0.2", "T2", "d2", 2, ProjectStatus.Active⟩

/-- C2 counterexample: the part_001 ProjectList listener assigns the
whole snapshot without filtering by the view's partition (its body never
reads the view's type), so a finished-partition view retains and renders
an Active record: after one valid submission the Finished list shows one
item, not zero. -/
theorem projectList_part001_retains_unfiltered_cex :
    ((Part001.onNotify ⟨[], []⟩ [sampleP1]).assignedProjects = [sampleP1])
  ∧ sampleP1.status ≠ ProjectStatus.Finished
  ∧ ((Part001.onNotify ⟨[], []⟩ [sampleP1]).rendered = ["T1"]) := by
  refine ⟨by decide, by decide, by decide⟩

/-- C2 amended: for the part_000 ProjectList, on every notification the
retained records are exactly the snapshot records whose status matches
the view's fixed partition, and the end-to-end run holds: submitting
title Build API, description desc, people 3 on the empty page makes the
Store hold one record, the Active list render exactly one item titled
Build API, and the Finished list render zero items.  (part_001's view
retains the snapshot unfiltered, as the counterexample shows.) -/
theorem projectList_partition_and_end_to_end :
    (∀ (type : ListType) (v : ViewState) (snap : List Project) (p : Project),
        p ∈ (Part000.onNotify type v snap).assignedProjects ↔
          p ∈ snap ∧ Part000.statusMatches type p = true)
  ∧ ((Part000.submitHandler
        ⟨[], ⟨[], []⟩, ⟨[], []⟩, "Build API", "desc", "3", 0, 0⟩
        "0.42").projects.length = 1)
  ∧ ((Part000.submitHandler
        ⟨[], ⟨[], []⟩, ⟨[], []⟩, "Build API", "desc", "3", 0, 0⟩
        "0.42").activeView.rendered = ["Build API"])
  ∧ ((Part000.submitHandler
        ⟨[], ⟨[], []⟩, ⟨[], []⟩, "Build API", "desc", "3", 0, 0⟩
        "0.42").finishedView.rendered = []) := by
  refine ⟨?_, by decide, by decide, by decide⟩
  intro type v snap p
  simp [Part000.onNotify, Part000.relevantProjects, List.mem_filter]

/-- C5 counterexample: part_001's renderProjects never clears the list
element, so after a second notification the rendered list keeps the
item of the first render: 3 items for 2 retained records. -/
theorem renderProjects_part001_residual_cex :
    ((Part001.onNotify (Part001.onNotify ⟨[], []⟩ [sampleP1])
        [sampleP1, sampleP2]).rendered = ["T1", "T1", "T2"])
  ∧ ((Part001.onNotify (Part001.onNotify ⟨[], []⟩ [sampleP1])
        [sampleP1, sampleP2]).assignedProjects.length = 2)
  ∧ ((Part001.onNotify (Part001.onNotify ⟨[], []⟩ [sampleP1])
        [sampleP1, sampleP2]).rendered.length ≠ 2) := by
  refine ⟨by decide, by decide, by decide⟩

/-- C5 amended: for the part_000 ProjectList, after any nonempty
sequence of notifications the rendered list is exactly one item (the
title) per record retained from the last snapshot, in snapshot order —
the previous rendered output is discarded entirely and nothing residual
survives.  (part_001's renderProjects appends without clearing, as the
counterexample shows.) -/
theorem renderProjects_part000_discards_previous :
    ∀ (type : ListType) (v : ViewState) (snaps : List (List Project))
      (s : List Project),
      ((List.foldl (Part000.onNotify type) v (snaps ++ [s])).rendered
          = (s.filter (Part000.statusMatches type)).map Project.title)
      ∧ ((List.foldl (Part000.onNotify type) v (snaps ++ [s])).assignedProjects
          = s.filter (Part000.statusMatches type)) := by
  intro type v snaps s
  rw [List.foldl_append]
  exact ⟨rfl, rfl⟩

/-- C6: when the title fails validation, submitHandler only fires the
alert: the Store's projects are unchanged, no listener is invoked, no
view changes, and the input fields keep their contents. -/
theorem submitHandler_invalid_title_no_mutation (a : Part000.MainApp)
    (randId : String) (h : validate (titleValidatable a.titleInput) = false) :
    Part000.submitHandler a randId = { a with alerts := a.alerts + 1 } := by
  simp [Part000.submitHandler, gatherUserInput, h]

/-- Witness for C6: submitting the 3-character title leaves everything
but the alert counter unchanged. -/
theorem submitHandler_invalid_title_no_mutation_witness :
    Part000.submitHandler ⟨[], ⟨[], []⟩, ⟨[], []⟩, "Hi!", "desc", "3", 0, 0⟩ "0.1"
      = ⟨[], ⟨[], []⟩, ⟨[], []⟩, "Hi!", "desc", "3", 1, 0⟩ :=
  submitHandler_invalid_title_no_mutation
    ⟨[], ⟨[], []⟩, ⟨[], []⟩, "Hi!", "desc", "3", 0, 0⟩ "0.1" (by decide)

/-- C4 failing input evaluated: gatherUserInput validates only the title
(the source comment reads add for all types), so submitting the valid
title Build API with people field 0 stores a Record whose people count
is 0 — not a positive integer, contradicting the claim that malformed
input never reaches the Store. -/
theorem people_zero_reaches_store :
    ∃ p ∈ (Part000.submitHandler
        ⟨[], ⟨[], []⟩, ⟨[], []⟩, "Build API", "desc", "0", 0, 0⟩
        "0.9").projects, ¬ 0 < p.people := by
  decide

/-- C3 counterexample: projects.slice() copies only the array of
references — the Project objects behind them are shared.  One listener,
one addProject: the listener receives the snapshot holding reference 0;
an in-place title assignment on the record behind that reference changes
the sequence of Record values the Store holds. -/
theorem snapshot_shallow_copy_cex :
    ((HeapModel.addProject ⟨[], [7], []⟩ "0.5" "Build API" "desc" 3).2
        = [(7, [0])])
  ∧ (((HeapModel.addProject ⟨[], [7], []⟩ "0.5" "Build API" "desc" 3).1.setTitle
        0 "CHANGED").readProjects
      ≠ (HeapModel.addProject ⟨[], [7], []⟩ "0.5" "Build API" "desc" 3).1.readProjects) := by
  refine ⟨by decide, by decide⟩

/-- C3 amended: the snapshot is an independent copy of the reference
array only.  An in-place record mutation performed through a snapshot
never changes the Store's reference sequence or its listener list, and
every held record whose reference differs from the mutated one reads
back unchanged; but (per the counterexample) the record behind the
mutated shared reference does change inside the Store. -/
theorem snapshot_array_copy_object_shared (m : HeapModel) (r : Nat)
    (t : String) :
    ((m.setTitle r t).projects = m.projects)
  ∧ ((m.setTitle r t).listeners = m.listeners)
  ∧ (∀ i : Nat, m.projects.getD i 0 ≠ r →
      (m.setTitle r t).readProjects.getD i default
        = m.readProjects.getD i default) := by
  refine ⟨rfl, rfl, ?_⟩
  intro i hi
  simp only [HeapModel.readProjects, HeapModel.setTitle,
    List.getD_eq_getElem?_getD, List.getElem?_map]
  cases hp : m.projects[i]? with
  | none => rfl
  | some ref =>
      have href : ref ≠ r := by
        have hd : m.projects.getD i 0 = ref := by
          simp [List.getD_eq_getElem?_getD, hp]
        rw [hd] at hi
        exact hi
      simp only [Option.map_some', Option.getD_some]
      rw [List.getElem?_set_ne (Ne.symm href)]

/-- Witness for the amended C3: mutating the record behind reference 1
leaves the Store's reference array intact and the record behind
reference 0 unchanged. -/
theorem snapshot_array_copy_object_shared_witness :
    (((⟨[sampleP1, sampleP2], [4], [0, 1]⟩ : HeapModel).setTitle 1 "x").projects
        = [0, 1])
  ∧ (((⟨[sampleP1, sampleP2], [4], [0, 1]⟩ : HeapModel).setTitle
        1 "x").readProjects.getD 0 default
      = (⟨[sampleP1, sampleP2], [4], [0, 1]⟩ : HeapModel).readProjects.getD
          0 default) :=
  ⟨(snapshot_array_copy_object_shared ⟨[sampleP1, sampleP2], [4], [0, 1]⟩ 1 "x").1,
   (snapshot_array_copy_object_shared ⟨[sampleP1, sampleP2], [4], [0, 1]⟩ 1 "x").2.2
      0 (by decide)⟩

/-- C8: the concrete evaluations of validate under the title
configuration — Test invalid, Hello World valid, the empty string
invalid — together with the configuration semantics: a configuration
with no checks accepts everything, and the string-length checks are
inert on a number value just as the numeric-bound checks are inert on a
string value. -/
theorem validate_config_semantics :
    (validate { value := Value.str "Test", required := some true,
                minLength := some 5, maxLength := some 15 } = false)
  ∧ (validate { value := Value.str "Hello World", required := some true,
                minLength := some 5, maxLength := some 15 } = true)
  ∧ (validate { value := Value.str "", required := some true,
                minLength := some 5, maxLength := some 15 } = false)
  ∧ (∀ v : Value, validate { value := v } = true)
  ∧ (∀ (n : Int) (req : Option Bool) (mi ma mn mx : Option Int),
      validate ⟨Value.num n, req, mi, ma, mn, mx⟩
        = validate ⟨Value.num n, req, none, none, mn, mx⟩)
  ∧ (∀ (s : String) (req : Option Bool) (mi ma mn mx : Option Int),
      validate ⟨Value.str s, req, mi, ma, mn, mx⟩
        = validate ⟨Value.str s, req, mi, ma, none, none⟩) := by
  refine ⟨by decide, by decide, by decide, ?_, ?_, ?_⟩
  · intro v
    cases v <;> rfl
  · intro n req mi ma mn mx
    cases mi <;> cases ma <;> rfl
  · intro s req mi ma mn mx
    cases mn <;> cases mx <;> rfl

/-- C10: the minLength and maxLength checks use strict inequality, so a
string whose length equals the configured minLength, or equals the
configured maxLength, is rejected whatever the other configured checks
say; in particular under the title configuration a 5-character and a
15-character title are both rejected. -/
theorem validate_strict_bounds :
    (∀ (s : String) (req : Option Bool) (ma mn mx : Option Int) (m : Int),
        (s.length : Int) = m →
        validate ⟨Value.str s, req, some m, ma, mn, mx⟩ = false)
  ∧ (∀ (s : String) (req : Option Bool) (mi mn mx : Option Int) (m : Int),
        (s.length : Int) = m →
        validate ⟨Value.str s, req, mi, some m, mn, mx⟩ = false)
  ∧ (validate { value := Value.str "Hello", required := some true,
                minLength := some 5, maxLength := some 15 } = false)
  ∧ (validate { value := Value.str "FifteenCharStr.", required := some true,
                minLength := some 5, maxLength := some 15 } = false) := by
  refine ⟨?_, ?_, by decide, by decide⟩
  · intro s req ma mn mx m h
    subst h
    cases ma <;> cases mn <;> cases mx <;>
      simp [validate, lt_irrefl]
  · intro s req mi mn mx m h
    subst h
    cases mi <;> cases mn <;> cases mx <;>
      simp [validate, lt_irrefl]

/-- Witness for C10: a 5-character string with minLength 5 alone is
rejected, and a 15-character string with maxLength 15 alone is
rejected. -/
theorem validate_strict_bounds_witness :
    (validate { value := Value.str "abcde", minLength := some 5 } = false)
  ∧ (validate { value := Value.str "abcdefghijklmno", maxLength := some 15 }
      = false) :=
  ⟨validate_strict_bounds.1 "abcde" none none none none 5 (by decide),
   validate_strict_bounds.2.1 "abcdefghijklmno" none none none none 15 (by decide)⟩
